import Mathlib

/-!
Verification development for the MinimalServerManager repository.

The definitions below are shallow embeddings of the JavaScript sources:
the frontend WebSocket client (`WebSocketService`), the HTTP client
(`ApiService`), the `ServerDetail` page handlers, and the `AlertManager`
component.  The backend Alert Evaluation Engine is not part of the
source tree; the definitions for it are modelled from the specification
and marked as such in their doc comments.
-/

/-! ## WebSocketService (frontend WebSocket client) -/

/-- From `WebSocketService` constructor: `this.reconnectInterval = 5000`. -/
def reconnectInterval : Nat := 5000

/-- From `WebSocketService` constructor: `this.maxReconnectAttempts = 10`. -/
def maxReconnectAttempts : Nat := 10

/-- Delay scheduled before a given reconnect attempt.  The `onclose`
handler always calls `setTimeout(() => this.connect(), this.reconnectInterval)`,
so the delay is the constant `reconnectInterval` for every attempt number. -/
def wsReconnectDelay : Nat → Nat := fun _ => reconnectInterval

/-- From `ApiService` constructor: `this.retryAttempts = 3`. -/
def apiRetryAttempts : Nat := 3

/-- From `ApiService` constructor: `this.retryDelay = 1000`. -/
def apiRetryDelayMs : Nat := 1000

/-- Delay awaited after failed attempt `attempt` in `ApiService.request`:
`await this.delay(this.retryDelay * attempt)`. -/
def apiRetryDelay (attempt : Nat) : Nat := apiRetryDelayMs * attempt

/-- Stop condition of the WebSocket reconnect loop:
`if (this.reconnectAttempts < this.maxReconnectAttempts)`. -/
def wsShouldRetry (attempts : Nat) : Bool := decide (attempts < maxReconnectAttempts)

/-- Stop condition of the `ApiService.request` retry loop: the loop only
continues for retriable failures (server 5xx or network errors) while
`attempt < this.retryAttempts`. -/
def apiShouldRetry (attempt : Nat) (retriable : Bool) : Bool :=
  retriable && decide (attempt < apiRetryAttempts)

/-- State of `WebSocketService` relevant to reconnection and subscriptions. -/
structure WsState where
  reconnectAttempts : Nat
  isConnected : Bool
  subscriptions : List (List Char)
  deriving DecidableEq, Repr

/-- Action taken by the `onclose` handler besides mutating the state. -/
inductive CloseAction where
  | scheduleReconnect (delayMs : Nat)
  | dispatchConnectionFailed (attempts : Nat)
  deriving DecidableEq, Repr

/-- Embedding of `socket.onclose`: sets `isConnected = false`, stops the
heartbeat, and either increments `reconnectAttempts` and schedules one
`connect()` call after `reconnectInterval` milliseconds, or (at the cap)
dispatches a `connection_failed` message carrying the attempt count. -/
def onclose (st : WsState) : WsState × CloseAction :=
  let st1 := { st with isConnected := false }
  if st1.reconnectAttempts < maxReconnectAttempts then
    ({ st1 with reconnectAttempts := st1.reconnectAttempts + 1 },
      .scheduleReconnect reconnectInterval)
  else
    (st1, .dispatchConnectionFailed st1.reconnectAttempts)

/-! ### Message handling -/

/-- An incoming message as seen by `handleMessage`; `mtype?` is the
`type` field (absent when the JS object lacks it). -/
structure WsMsg where
  mtype? : Option String := none
  attempts? : Option Nat := none
  deriving DecidableEq, Repr

/-- Message types routed through the real-time-update `switch` of
`handleMessage`; each case forwards to a helper that itself dispatches
to `messageHandlers[type]`. -/
def realtimeTypes : List String :=
  ["server_status_update", "server_metrics_update", "alert_created",
   "alert_resolved", "server_created", "server_updated", "server_deleted"]

/-- Record of one handler invocation; `threw` notes that the handler
raised and the surrounding `try`/`catch` logged the error. -/
structure DispatchRecord where
  handler : Nat
  threw : Bool
  deriving DecidableEq, Repr

/-- Result of one `handleMessage` call: either the early `return` on an
invalid message (warn logged), or the list of handler invocations made. -/
inductive HandleResult where
  | invalidIgnored : HandleResult
  | processed (records : List DispatchRecord) : HandleResult
  deriving DecidableEq, Repr

/-- Look up `this.messageHandlers[type]`; an absent key behaves as no
handlers for dispatch purposes. -/
def getHandlers (hmap : String → Option (List Nat)) (t : String) : List Nat :=
  (hmap t).getD []

/-- Run every handler of a list on the current message, mirroring the
`forEach` loops whose bodies wrap each call in `try`/`catch`: every
handler is invoked, and a raising handler only yields a logged record. -/
def runHandlerList (env : Nat → Except String Unit) (hs : List Nat) : List DispatchRecord :=
  hs.map (fun h => { handler := h,
                     threw := match env h with | .ok _ => false | .error _ => true })

/-- Embedding of `WebSocketService.handleMessage`.  `hmap` is
`this.messageHandlers`, `env` gives each registered handler's outcome on
this message.  A `none` input models a `null`/`undefined` message; a
message without a `type` field is likewise ignored with a warning.  The
`error` system case and the real-time cases dispatch to
`messageHandlers[type]` before the final custom-handler dispatch does so
again, which is reflected in the concatenation below. -/
def handleMessage (hmap : String → Option (List Nat)) (env : Nat → Except String Unit)
    (m? : Option WsMsg) : HandleResult :=
  match m? with
  | none => .invalidIgnored
  | some m =>
    match m.mtype? with
    | none => .invalidIgnored
    | some t =>
      let sys := if t = "error" then runHandlerList env (getHandlers hmap t) else []
      let rt := if realtimeTypes.contains t then runHandlerList env (getHandlers hmap t) else []
      let custom := runHandlerList env (getHandlers hmap t)
      .processed (sys ++ rt ++ custom)

/-- Handlers actually invoked during one `handleMessage` call. -/
def invokedHandlers : HandleResult → List Nat
  | .invalidIgnored => []
  | .processed rs => rs.map (fun r => r.handler)

/-- Embedding of `WebSocketService.onMessage`: create the list for the
type when absent, then push the handler at the end. -/
def onMessage (hmap : String → Option (List Nat)) (t : String) (h : Nat) :
    String → Option (List Nat) :=
  fun t2 => if t2 = t then some ((hmap t2).getD [] ++ [h]) else hmap t2

/-- Embedding of `WebSocketService.offMessage`: when the type has an
entry, replace it by the entry filtered of the given handler; an absent
type is left untouched. -/
def offMessage (hmap : String → Option (List Nat)) (t : String) (h : Nat) :
    String → Option (List Nat) :=
  fun t2 => if t2 = t then (hmap t2).map (fun l => l.filter (fun g => g != h)) else hmap t2

/-! ### Subscriptions and resubscription

Subscription keys are the strings the JS code stores in its `Set`,
modelled as lists of characters so that the template-and-split string
manipulation can be reasoned about directly. -/

/-- Key recorded by `subscribe`: the template
``serverId ? `${subscriptionType}:${serverId}` : subscriptionType``. -/
def subKey (t : List Char) (sid? : Option (List Char)) : List Char :=
  match sid? with
  | none => t
  | some sid => t ++ ':' :: sid

/-- JavaScript `String.prototype.split(':')`: always returns at least one
part; empty parts are kept. -/
def splitColon : List Char → List (List Char)
  | [] => [[]]
  | c :: cs =>
    if c = ':' then [] :: splitColon cs
    else
      match splitColon cs with
      | [] => [[c]]
      | p :: rest => (c :: p) :: rest

/-- A subscribe/unsubscribe message sent to the server: the
`subscription` field and the optional `server_id` field. -/
structure WsOutMsg where
  subscription : List Char
  serverId? : Option (List Char)
  deriving DecidableEq, Repr

/-- The message `resubscribeAll` sends for one stored key:
`const [type, serverId] = subscription.split(':')` followed by
`server_id: serverId === type ? null : serverId` (an absent second part
behaves as a null `server_id`). -/
def resubMessage (key : List Char) : WsOutMsg :=
  let parts := splitColon key
  let t := parts.headD []
  match (parts.drop 1).head? with
  | none => ⟨t, none⟩
  | some sid => ⟨t, if sid = t then none else some sid⟩

/-- Embedding of `WebSocketService.resubscribeAll`: one subscribe message
per key in the stored subscription set. -/
def resubscribeAll (subs : List (List Char)) : List WsOutMsg :=
  subs.map resubMessage

/-- Embedding of `socket.onopen`: marks the connection live, resets the
reconnect counter, and re-sends a subscribe message for every stored
subscription via `resubscribeAll`. -/
def onopen (st : WsState) : WsState × List WsOutMsg :=
  ({ st with isConnected := true, reconnectAttempts := 0 },
    resubscribeAll st.subscriptions)

/-- Embedding of `WebSocketService.subscribe`: add the key to the `Set`
(no duplicates, insertion order) and, when connected, send the subscribe
message with the original type and server id. -/
def subscribeSvc (st : WsState) (t : List Char) (sid? : Option (List Char)) :
    WsState × Option WsOutMsg :=
  let key := subKey t sid?
  let subs := if st.subscriptions.contains key then st.subscriptions
              else st.subscriptions ++ [key]
  ({ st with subscriptions := subs },
    if st.isConnected then some ⟨t, sid?⟩ else none)

/-! ### sendMessage -/

/-- WebSocket `readyState` constants. -/
def WS_OPEN : Nat := 1

/-- The part of a socket object `sendMessage` inspects. -/
structure Socket where
  readyState : Nat
  deriving DecidableEq, Repr

/-- Embedding of `WebSocketService.sendMessage`.  `socket?` is
`this.socket` (absent or with its `readyState`); `sendOutcome` is the
result of serialising and sending the message, `Except.error` modelling
a thrown exception, which the code catches and converts to `false`. -/
def sendMessage (socket? : Option Socket) (sendOutcome : Except String Unit) : Bool :=
  match socket? with
  | none => false
  | some s =>
    if s.readyState ≠ WS_OPEN then false
    else
      match sendOutcome with
      | .ok _ => true
      | .error _ => false

/-! ## ServerDetail page handlers -/

/-- The fields of the viewed server the status handler touches. -/
structure ServerInfo where
  status : String
  updatedAt : Option String
  deriving DecidableEq, Repr

/-- Payload of a `server_status_update` message. -/
structure StatusData where
  serverId? : Option Int
  status : String
  timestamp : Option String
  deriving DecidableEq, Repr

/-- Payload of a `server_metrics_update` message; the metrics object is
opaque to the handler, which stores it whole. -/
structure MetricsData where
  serverId? : Option Int
  metrics : Nat
  deriving DecidableEq, Repr

/-- Component state of the `ServerDetail` page touched by the two
real-time handlers. -/
structure DetailState where
  server : Option ServerInfo
  realtimeMetrics : Option Nat
  lastUpdate : Option Nat
  deriving DecidableEq, Repr

/-- Embedding of `handleServerStatusUpdate` in `ServerDetail`:
`if (data.server_id === parseInt(id))` update the server's status and
`updated_at` (when a server is loaded) and stamp `lastUpdate`; otherwise
leave the state untouched.  `viewedId` is `parseInt(id)`. -/
def handleServerStatusUpdate (viewedId : Int) (now : Nat) (d : StatusData)
    (st : DetailState) : DetailState :=
  if d.serverId? = some viewedId then
    { st with
      server := st.server.map (fun s => { s with status := d.status, updatedAt := d.timestamp }),
      lastUpdate := some now }
  else st

/-- Embedding of `handleServerMetricsUpdate` in `ServerDetail`:
`if (data.server_id === parseInt(id))` store `data.metrics` as the
realtime metrics and stamp `lastUpdate`; otherwise leave the state
untouched. -/
def handleServerMetricsUpdate (viewedId : Int) (now : Nat) (d : MetricsData)
    (st : DetailState) : DetailState :=
  if d.serverId? = some viewedId then
    { st with realtimeMetrics := some d.metrics, lastUpdate := some now }
  else st

/-! ## AlertManager component -/

/-- An alert held in the `AlertManager` notification list. -/
structure Alert where
  id : Int
  title : String
  message : String
  severity : String
  serverId? : Option Int
  createdAt : Int
  acknowledged : Bool
  status : String
  resolvedAt : Option Int
  updatedAt : Option Int
  deriving DecidableEq, Repr

/-- Incoming alert payload; absent fields are `none`. -/
structure AlertData where
  id? : Option Int
  title? : Option String
  message? : Option String
  severity? : Option String
  serverId? : Option Int
  createdAt? : Option Int
  resolvedAt? : Option Int
  deriving DecidableEq, Repr

/-- JavaScript `x || d` for an optional number: `0` is falsy. -/
def orElseNum (x? : Option Int) (d : Int) : Int :=
  match x? with
  | none => d
  | some x => if x = 0 then d else x

/-- JavaScript `x || d` for an optional string: the empty string is falsy. -/
def orElseStr (x? : Option String) (d : String) : String :=
  match x? with
  | none => d
  | some x => if x = "" then d else x

/-- The alert object `handleNewAlert` builds: each field defaulted via
`||`, `acknowledged: false`, `status: 'active'`; `now` is `Date.now()`. -/
def mkAlert (d : AlertData) (now : Int) : Alert :=
  { id := orElseNum d.id? now
    title := orElseStr d.title? "Server Alert"
    message := orElseStr d.message? "A new alert has been triggered"
    severity := orElseStr d.severity? "info"
    serverId? := d.serverId?
    createdAt := orElseNum d.createdAt? now
    acknowledged := false
    status := "active"
    resolvedAt := none
    updatedAt := none }

/-- Embedding of `handleNewAlert`:
`setAlerts(prev => [newAlert, ...prev].slice(0, 10))`. -/
def handleNewAlert (d : AlertData) (now : Int) (prev : List Alert) : List Alert :=
  (mkAlert d now :: prev).take 10

/-- Embedding of `handleAlertResolved`: map over the list, marking the
matching alert resolved and recording `resolved_at`. -/
def handleAlertResolved (d : AlertData) (prev : List Alert) : List Alert :=
  prev.map (fun a =>
    if d.id? = some a.id then { a with status := "resolved", resolvedAt := d.resolvedAt? }
    else a)

/-- Embedding of `handleAlertUpdated`: map over the list, merging the
payload's present fields into the matching alert (`{ ...alert, ...alertData }`). -/
def handleAlertUpdated (d : AlertData) (prev : List Alert) : List Alert :=
  prev.map (fun a =>
    if d.id? = some a.id then
      { a with
        title := (d.title?).getD a.title
        message := (d.message?).getD a.message
        severity := (d.severity?).getD a.severity
        serverId? := match d.serverId? with | none => a.serverId? | some s => some s
        resolvedAt := match d.resolvedAt? with | none => a.resolvedAt | some r => some r }
    else a)

/-- Embedding of `handleDismissAlert`:
`setAlerts(prev => prev.filter(a => a.id !== alert.id))`. -/
def handleDismissAlert (target : Alert) (prev : List Alert) : List Alert :=
  prev.filter (fun a => a.id != target.id)

/-- Embedding of the periodic auto-removal effect: resolved alerts are
kept only while `now - (resolved_at || updated_at) < 30000`; a resolved
alert with neither timestamp compares as `NaN` and is removed. -/
def autoRemoveResolved (now : Int) (prev : List Alert) : List Alert :=
  prev.filter (fun a =>
    if a.status = "resolved" then
      match a.resolvedAt, a.updatedAt with
      | some r, _ => decide (now - r < 30000)
      | none, some u => decide (now - u < 30000)
      | none, none => false
    else true)

/-! ## Alert Evaluation Engine (backend, modelled from the spec) -/

/-- Modelled from the spec: the backend Alert Evaluation Engine
(`msm/backend`) is not part of the source tree.  Comparator set of an
`AlertRule`. -/
inductive Comparator where
  | gt | ge | lt | le | eq
  deriving DecidableEq, Repr

/-- Modelled from the spec: whether a rule's comparator holds for a
metric value against the rule's threshold. -/
def compHolds : Comparator → Int → Int → Bool
  | .gt, v, th => decide (v > th)
  | .ge, v, th => decide (v ≥ th)
  | .lt, v, th => decide (v < th)
  | .le, v, th => decide (v ≤ th)
  | .eq, v, th => decide (v = th)

/-- Modelled from the spec: the rule fields the evaluation engine reads
(comparator, threshold, cooldown duration in seconds). -/
structure AlertRule where
  comparator : Comparator
  threshold : Int
  cooldownSec : Nat
  deriving DecidableEq, Repr

/-- Modelled from the spec: alert lifecycle states of the per
(rule, host) state machine. -/
inductive AlertState where
  | inactive | active | acknowledged | resolved
  deriving DecidableEq, Repr

/-- Modelled from the spec: per (rule, host) evaluation state.
`eventsCreated` counts AlertEvent records created, `lastNotifiedAt` is
the event's `last_notified_at`, `notifications` counts dispatches to the
Broadcast Hub. -/
structure EngineState where
  state : AlertState
  eventsCreated : Nat
  lastNotifiedAt : Option Nat
  notifications : Nat
  deriving DecidableEq, Repr

/-- Modelled from the spec: the cooldown window has elapsed at time `t`
since the last notification. -/
def cooldownOver (r : AlertRule) (t : Nat) (last? : Option Nat) : Bool :=
  match last? with
  | none => true
  | some l => decide (l + r.cooldownSec ≤ t)

/-- Modelled from the spec (Alert Evaluation Engine, §4.4): evaluate one
metric sample at time `t`.  An unavailable value (`none`) neither
breaches nor resolves.  `inactive → active` creates a new AlertEvent and
notifies; while the breach persists the state is unchanged and the Hub
is re-notified only once per cooldown interval; `active`/`acknowledged
→ resolved` when the comparator no longer holds; re-entering breach
after resolution creates a fresh AlertEvent. -/
def evalMetric (r : AlertRule) (es : EngineState) (t : Nat) (v? : Option Int) : EngineState :=
  match v? with
  | none => es
  | some v =>
    if compHolds r.comparator v r.threshold then
      match es.state with
      | .inactive =>
        { state := .active, eventsCreated := es.eventsCreated + 1,
          lastNotifiedAt := some t, notifications := es.notifications + 1 }
      | .resolved =>
        { state := .active, eventsCreated := es.eventsCreated + 1,
          lastNotifiedAt := some t, notifications := es.notifications + 1 }
      | .active =>
        if cooldownOver r t es.lastNotifiedAt then
          { es with lastNotifiedAt := some t, notifications := es.notifications + 1 }
        else es
      | .acknowledged =>
        if cooldownOver r t es.lastNotifiedAt then
          { es with lastNotifiedAt := some t, notifications := es.notifications + 1 }
        else es
    else
      match es.state with
      | .active =>
        { es with state := .resolved, lastNotifiedAt := some t,
                  notifications := es.notifications + 1 }
      | .acknowledged =>
        { es with state := .resolved, lastNotifiedAt := some t,
                  notifications := es.notifications + 1 }
      | _ => es

/-- Modelled from the spec: the external acknowledge call,
`active → acknowledged`. -/
def ackEvent (es : EngineState) : EngineState :=
  match es.state with
  | .active => { es with state := .acknowledged }
  | _ => es

/-- Modelled from the spec: fold the engine over a timed metric stream. -/
def runMetrics (r : AlertRule) (es : EngineState) (l : List (Nat × Option Int)) : EngineState :=
  l.foldl (fun s tv => evalMetric r s tv.1 tv.2) es

/-- Modelled from the spec: the sequence of states after each sample. -/
def stateTrace (r : AlertRule) (es : EngineState) : List (Nat × Option Int) → List AlertState
  | [] => []
  | tv :: rest =>
    let es2 := evalMetric r es tv.1 tv.2
    es2.state :: stateTrace r es2 rest

/-- Number of `inactive/resolved → active` transitions along a trace
starting from a given state. -/
def countActivations : AlertState → List AlertState → Nat
  | _, [] => 0
  | prev, s :: rest =>
    (if prev ≠ .active ∧ s = .active then 1 else 0) + countActivations s rest

/-- Fresh engine state for a (rule, host) pair. -/
def initEngineState : EngineState :=
  { state := .inactive, eventsCreated := 0, lastNotifiedAt := none, notifications := 0 }

/-- The metric stream of the C1 scenario: values 75, 85, 85, 70 at one
minute spacing, within a 300 second cooldown window. -/
def c1Stream : List (Nat × Option Int) :=
  [(0, some 75), (60, some 85), (120, some 85), (180, some 70)]

/-- The rule of the C1 scenario: comparator `>` with threshold 80. -/
def c1Rule : AlertRule := { comparator := .gt, threshold := 80, cooldownSec := 300 }

/-! ## Concrete instances used by witnesses -/

/-- A concrete handler registry: two handlers for `alert_created`. -/
def exHandlerMap : String → Option (List Nat) :=
  fun t => if t = "alert_created" then some [1, 2] else none

/-- A concrete handler registry for `connection_failed`. -/
def exFailMap : String → Option (List Nat) :=
  fun t => if t = "connection_failed" then some [7] else none

/-- A concrete handler environment in which handler 1 throws. -/
def exEnv : Nat → Except String Unit :=
  fun h => if h = 1 then .error "boom" else .ok ()

/-! ## Helper lemmas -/

lemma map_handler_runHandlerList (env : Nat → Except String Unit) (hs : List Nat) :
    (runHandlerList env hs).map (fun r => r.handler) = hs := by
  induction hs with
  | nil => rfl
  | cons a l ih => simpa [runHandlerList] using ih

lemma invokedHandlers_handleMessage (hmap : String → Option (List Nat))
    (env : Nat → Except String Unit) (m : WsMsg) (t : String) (ht : m.mtype? = some t) :
    invokedHandlers (handleMessage hmap env (some m)) =
      (if t = "error" then getHandlers hmap t else []) ++
      (if realtimeTypes.contains t then getHandlers hmap t else []) ++
      getHandlers hmap t := by
  simp only [handleMessage, ht, invokedHandlers, List.map_append,
    apply_ite (List.map (fun r : DispatchRecord => r.handler)),
    map_handler_runHandlerList, List.map_nil]

lemma mem_invokedHandlers_iff (hmap : String → Option (List Nat))
    (env : Nat → Except String Unit) (m : WsMsg) (t : String) (x : Nat)
    (ht : m.mtype? = some t) :
    x ∈ invokedHandlers (handleMessage hmap env (some m)) ↔ x ∈ getHandlers hmap t := by
  rw [invokedHandlers_handleMessage hmap env m t ht]
  simp only [List.mem_append]
  constructor
  · rintro ((hx | hx) | hx)
    · split at hx
      · exact hx
      · simp at hx
    · split at hx
      · exact hx
      · simp at hx
    · exact hx
  · intro hx
    exact Or.inr hx

lemma getHandlers_offMessage (hmap : String → Option (List Nat)) (t : String) (h : Nat) :
    getHandlers (offMessage hmap t h) t = (getHandlers hmap t).filter (fun g => g != h) := by
  simp only [getHandlers, offMessage, if_pos rfl]
  cases hmap t <;> simp

lemma splitColon_ne_nil (l : List Char) : splitColon l ≠ [] := by
  induction l with
  | nil => simp [splitColon]
  | cons c cs ih =>
    simp only [splitColon]
    by_cases hc : c = ':'
    · simp [hc]
    · simp only [if_neg hc]
      rcases hsp : splitColon cs with _ | ⟨p, rest⟩ <;> simp

lemma splitColon_no_colon (l : List Char) (h : ':' ∉ l) : splitColon l = [l] := by
  induction l with
  | nil => rfl
  | cons c cs ih =>
    rw [List.mem_cons, not_or] at h
    have hc : ¬ c = ':' := fun hh => h.1 hh.symm
    simp only [splitColon, if_neg hc]
    rw [ih h.2]

lemma splitColon_append (t r : List Char) (h : ':' ∉ t) :
    splitColon (t ++ ':' :: r) = t :: splitColon r := by
  induction t with
  | nil => simp [splitColon]
  | cons c cs ih =>
    rw [List.mem_cons, not_or] at h
    have hc : ¬ c = ':' := fun hh => h.1 hh.symm
    have ih2 := ih h.2
    simp only [List.cons_append, splitColon, if_neg hc, List.append_eq, ih2]

lemma resubMessage_plain (t : List Char) (h : ':' ∉ t) : resubMessage t = ⟨t, none⟩ := by
  simp [resubMessage, splitColon_no_colon t h]

lemma resubMessage_pair (t sid : List Char) (ht : ':' ∉ t) (hs : ':' ∉ sid)
    (hne : sid ≠ t) : resubMessage (subKey t (some sid)) = ⟨t, some sid⟩ := by
  simp [resubMessage, subKey, splitColon_append t sid ht,
    splitColon_no_colon sid hs, hne]

/-- A concrete WebSocketService state at the reconnect cap. -/
def exWsState : WsState := ⟨10, true, []⟩

/-! ## Claim theorems -/

/-- Claim C1: over the metric value stream 75, 85, 85, 70 a rule with
comparator `>` and threshold 80 drives the per (rule, host) state
machine from `inactive` to `active` exactly once (when the value crosses
to 85), creates exactly one AlertEvent (no duplicate for the repeated 85
inside the cooldown window, which also triggers no second notification),
and the state transitions to `resolved` when the value drops to 70. -/
theorem c1_alert_state_machine :
    stateTrace c1Rule initEngineState c1Stream =
      [.inactive, .active, .active, .resolved] ∧
    countActivations .inactive (stateTrace c1Rule initEngineState c1Stream) = 1 ∧
    (runMetrics c1Rule initEngineState c1Stream).eventsCreated = 1 ∧
    (runMetrics c1Rule initEngineState c1Stream).notifications = 2 ∧
    (runMetrics c1Rule initEngineState c1Stream).state = .resolved := by
  decide

/-- Claim C2: the ServerDetail page updates its server status or
realtime metrics state only when the message's `server_id` equals the
viewed server's id; a message whose `server_id` refers to any other
server leaves the component's state unchanged. -/
theorem c2_server_detail_host_filter (viewedId : Int) (now : Nat)
    (sd : StatusData) (md : MetricsData) (st : DetailState)
    (hs : sd.serverId? ≠ some viewedId) (hm : md.serverId? ≠ some viewedId) :
    handleServerStatusUpdate viewedId now sd st = st ∧
    handleServerMetricsUpdate viewedId now md st = st ∧
    (∀ md2 : MetricsData, md2.serverId? = some viewedId →
      (handleServerMetricsUpdate viewedId now md2 st).realtimeMetrics = some md2.metrics) := by
  refine ⟨?_, ?_, ?_⟩
  · simp [handleServerStatusUpdate, hs]
  · simp [handleServerMetricsUpdate, hm]
  · intro md2 h2
    simp [handleServerMetricsUpdate, h2]

/-- Witness for Claim C2 at concrete inputs: a message for server 2
leaves the page viewing server 1 unchanged. -/
theorem c2_witness :
    ((⟨some 2, "up", none⟩ : StatusData).serverId? ≠ some 1 ∧
     (⟨some 2, 5⟩ : MetricsData).serverId? ≠ some 1) ∧
    (handleServerStatusUpdate 1 0 ⟨some 2, "up", none⟩ ⟨none, none, none⟩ = ⟨none, none, none⟩ ∧
     handleServerMetricsUpdate 1 0 ⟨some 2, 5⟩ ⟨none, none, none⟩ = ⟨none, none, none⟩ ∧
     (∀ md2 : MetricsData, md2.serverId? = some 1 →
       (handleServerMetricsUpdate 1 0 md2 ⟨none, none, none⟩).realtimeMetrics = some md2.metrics)) :=
  ⟨⟨by decide, by decide⟩,
   c2_server_detail_host_filter 1 0 ⟨some 2, "up", none⟩ ⟨some 2, 5⟩ ⟨none, none, none⟩
     (by decide) (by decide)⟩

/-- Counterexample for Claim C3: there is no single policy function of
the attempt number that, scaled by each loop's base delay
(`reconnectInterval` for the WebSocket loop, `retryDelay` for the HTTP
loop), yields both loops' inter-attempt delays — the WebSocket delay is
constant while the HTTP delay grows linearly. -/
theorem c3_counterexample :
    ¬ ∃ s : Nat → Nat,
      (∀ n, wsReconnectDelay n = reconnectInterval * s n) ∧
      (∀ n, apiRetryDelay n = apiRetryDelayMs * s n) := by
  rintro ⟨s, hws, hapi⟩
  have h1 := hws 2
  have h2 := hapi 2
  simp only [wsReconnectDelay, reconnectInterval, apiRetryDelay, apiRetryDelayMs] at h1 h2
  omega

/-- Claim C3 (amended): the WebSocket reconnect loop and the HTTP retry
loop are two separate ad hoc implementations with different policies:
the WebSocket loop always waits the fixed `reconnectInterval` of 5000 ms
under a 10 attempt cap, while the HTTP loop waits `retryDelay * attempt`
(1000·n ms) under a 3 attempt cap. -/
theorem c3_two_ad_hoc_policies :
    ∀ n, wsReconnectDelay n = 5000 ∧ apiRetryDelay n = 1000 * n ∧
      maxReconnectAttempts = 10 ∧ apiRetryAttempts = 3 := by
  intro n
  exact ⟨rfl, rfl, rfl, rfl⟩

/-- Claim C4: after an unexpected close, while fewer than 10 attempts
have been made the client increments the counter and schedules exactly
one reconnect after the fixed 5000 ms interval; at the cap it schedules
none and instead dispatches a `connection_failed` message carrying the
attempt count, which reaches every registered `connection_failed`
handler. -/
theorem c4_reconnect_cap (st : WsState) (hmap : String → Option (List Nat))
    (env : Nat → Except String Unit) (h : Nat)
    (hh : h ∈ getHandlers hmap "connection_failed") :
    (st.reconnectAttempts < maxReconnectAttempts →
      onclose st =
        ({ st with isConnected := false, reconnectAttempts := st.reconnectAttempts + 1 },
          .scheduleReconnect reconnectInterval)) ∧
    (¬ st.reconnectAttempts < maxReconnectAttempts →
      onclose st = ({ st with isConnected := false },
                    .dispatchConnectionFailed st.reconnectAttempts) ∧
      h ∈ invokedHandlers (handleMessage hmap env
            (some { mtype? := some "connection_failed",
                    attempts? := some st.reconnectAttempts }))) := by
  constructor
  · intro hlt
    simp [onclose, hlt]
  · intro hge
    refine ⟨by simp [onclose, hge], ?_⟩
    exact (mem_invokedHandlers_iff hmap env _ "connection_failed" h rfl).mpr hh

/-- Witness for Claim C4 at the cap: with 10 attempts made, the close
handler dispatches `connection_failed` with attempts 10 to the
registered handler 7. -/
theorem c4_witness :
    7 ∈ getHandlers exFailMap "connection_failed" ∧
    ((exWsState.reconnectAttempts < maxReconnectAttempts →
      onclose exWsState =
        ({ exWsState with isConnected := false, reconnectAttempts := exWsState.reconnectAttempts + 1 },
          .scheduleReconnect reconnectInterval)) ∧
     (¬ exWsState.reconnectAttempts < maxReconnectAttempts →
      onclose exWsState = ({ exWsState with isConnected := false },
                           .dispatchConnectionFailed exWsState.reconnectAttempts) ∧
      7 ∈ invokedHandlers (handleMessage exFailMap exEnv
            (some { mtype? := some "connection_failed",
                    attempts? := some exWsState.reconnectAttempts })))) :=
  ⟨by decide, c4_reconnect_cap exWsState exFailMap exEnv 7 (by decide)⟩

/-- Counterexample for Claim C5: in the WebSocket reconnect loop the
delay before consecutive attempts is constant, not strictly increasing. -/
theorem c5_counterexample :
    wsReconnectDelay 2 = wsReconnectDelay 1 ∧
    ¬ wsReconnectDelay 1 < wsReconnectDelay 2 := by
  exact ⟨rfl, by decide⟩

/-- Claim C5 (amended): the HTTP retry delay strictly increases between
consecutive attempts, but the WebSocket reconnect delay is the constant
5000 ms for every pair of consecutive attempts. -/
theorem c5_api_increasing_ws_constant :
    ∀ n, apiRetryDelay n < apiRetryDelay (n + 1) ∧
      wsReconnectDelay (n + 1) = wsReconnectDelay n := by
  intro n
  refine ⟨?_, rfl⟩
  simp only [apiRetryDelay, apiRetryDelayMs]
  omega

/-- Counterexample for Claim C6: for a subscription recorded with a
server id equal to the subscription type (key `a:a`), `resubscribeAll`
re-sends the subscription with a null `server_id` instead of the
original one, so the original server id is not reconstructed. -/
theorem c6_counterexample :
    resubMessage (subKey ['a'] (some ['a'])) = ⟨['a'], none⟩ ∧
    resubMessage (subKey ['a'] (some ['a'])) ≠ ⟨['a'], some ['a']⟩ := by
  decide

/-- Claim C6 (amended): on every successful (re)connection open event
the client resets its counters and re-sends one subscribe message per
subscription recorded in its local set; for keys of the form
`type:serverId` the original type and server id are reconstructed
provided the type and server id contain no colon and the server id
differs from the type (otherwise the re-sent message carries a null or
truncated server id). -/
theorem c6_resubscribe_on_open (st : WsState) (t sid : List Char)
    (ht : ':' ∉ t) (hsid : ':' ∉ sid) (hne : sid ≠ t) :
    (onopen st).2 = st.subscriptions.map resubMessage ∧
    (onopen st).1.isConnected = true ∧
    (onopen st).1.reconnectAttempts = 0 ∧
    resubMessage (subKey t none) = ⟨t, none⟩ ∧
    resubMessage (subKey t (some sid)) = ⟨t, some sid⟩ :=
  ⟨rfl, rfl, rfl, resubMessage_plain t ht, resubMessage_pair t sid ht hsid hne⟩

/-- Witness for Claim C6 with the key `s:5`: the subscribe message with
type `s` and server id `5` is reconstructed on reconnection. -/
theorem c6_witness :
    ((':' ∉ (['s'] : List Char)) ∧ (':' ∉ (['5'] : List Char)) ∧
      (['5'] : List Char) ≠ ['s']) ∧
    ((onopen exWsState).2 = exWsState.subscriptions.map resubMessage ∧
     (onopen exWsState).1.isConnected = true ∧
     (onopen exWsState).1.reconnectAttempts = 0 ∧
     resubMessage (subKey ['s'] none) = ⟨['s'], none⟩ ∧
     resubMessage (subKey ['s'] (some ['5'])) = ⟨['s'], some ['5']⟩) :=
  ⟨⟨by decide, by decide, by decide⟩,
   c6_resubscribe_on_open exWsState ['s'] ['5'] (by decide) (by decide) (by decide)⟩

/-- Claim C7: `sendMessage` never throws: with no socket or a socket not
in the OPEN state it returns `false` (message dropped, warning logged);
when the underlying send succeeds it returns `true`; an exception raised
by serialisation or send is caught and converted to `false`. -/
theorem c7_sendMessage_total (s : Socket) (e : String) (r : Except String Unit)
    (hopen : s.readyState = WS_OPEN) :
    sendMessage none r = false ∧
    (∀ s2 : Socket, s2.readyState ≠ WS_OPEN → sendMessage (some s2) r = false) ∧
    sendMessage (some s) (.ok ()) = true ∧
    sendMessage (some s) (.error e) = false := by
  refine ⟨rfl, ?_, ?_, ?_⟩
  · intro s2 h2
    simp [sendMessage, h2]
  · simp [sendMessage, hopen]
  · simp [sendMessage, hopen]

/-- Witness for Claim C7 with an OPEN socket. -/
theorem c7_witness :
    (⟨1⟩ : Socket).readyState = WS_OPEN ∧
    (sendMessage none (Except.ok ()) = false ∧
     (∀ s2 : Socket, s2.readyState ≠ WS_OPEN → sendMessage (some s2) (Except.ok ()) = false) ∧
     sendMessage (some ⟨1⟩) (.ok ()) = true ∧
     sendMessage (some ⟨1⟩) (.error "boom") = false) :=
  ⟨rfl, c7_sendMessage_total ⟨1⟩ "boom" (Except.ok ()) rfl⟩

/-- Claim C8: after `offMessage(type, handler)` no later `handleMessage`
call for a message of that type invokes the removed handler, every other
handler registered for the type is still invoked, and `offMessage` on a
type with no registered handlers leaves the registry unchanged. -/
theorem c8_offMessage_removes_handler (hmap : String → Option (List Nat))
    (env : Nat → Except String Unit) (t : String) (h g : Nat) (m : WsMsg)
    (ht : m.mtype? = some t) :
    h ∉ invokedHandlers (handleMessage (offMessage hmap t h) env (some m)) ∧
    (g ∈ getHandlers hmap t → g ≠ h →
      g ∈ invokedHandlers (handleMessage (offMessage hmap t h) env (some m))) ∧
    (hmap t = none → offMessage hmap t h = hmap) := by
  refine ⟨?_, ?_, ?_⟩
  · rw [mem_invokedHandlers_iff (offMessage hmap t h) env m t h ht, getHandlers_offMessage]
    simp [List.mem_filter]
  · intro hg hgh
    rw [mem_invokedHandlers_iff (offMessage hmap t h) env m t g ht, getHandlers_offMessage]
    simp [List.mem_filter, hg, hgh]
  · intro hnone
    funext t2
    simp only [offMessage]
    by_cases ht2 : t2 = t
    · subst ht2
      simp [hnone]
    · simp [ht2]

/-- Witness for Claim C8: removing handler 1 for `alert_created` leaves
handler 2 still invoked and handler 1 never invoked. -/
theorem c8_witness :
    ((⟨some "alert_created", none⟩ : WsMsg).mtype? = some "alert_created") ∧
    (1 ∉ invokedHandlers (handleMessage (offMessage exHandlerMap "alert_created" 1) exEnv
        (some ⟨some "alert_created", none⟩)) ∧
     (2 ∈ getHandlers exHandlerMap "alert_created" → 2 ≠ 1 →
       2 ∈ invokedHandlers (handleMessage (offMessage exHandlerMap "alert_created" 1) exEnv
        (some ⟨some "alert_created", none⟩))) ∧
     (exHandlerMap "alert_created" = none →
       offMessage exHandlerMap "alert_created" 1 = exHandlerMap)) :=
  ⟨rfl, c8_offMessage_removes_handler exHandlerMap exEnv "alert_created" 1 2
      ⟨some "alert_created", none⟩ rfl⟩

/-- Claim C9: `handleMessage` is total: a null message or one without a
type field is ignored (warning logged) without throwing, and every
handler registered for a message's type is invoked regardless of
exceptions thrown by other handlers, which are caught inside the
dispatch loop. -/
theorem c9_handleMessage_total (hmap : String → Option (List Nat))
    (env : Nat → Except String Unit) (m : WsMsg) (t : String) (h : Nat)
    (ht : m.mtype? = some t) (hh : h ∈ getHandlers hmap t) :
    handleMessage hmap env none = .invalidIgnored ∧
    (∀ m2 : WsMsg, m2.mtype? = none → handleMessage hmap env (some m2) = .invalidIgnored) ∧
    h ∈ invokedHandlers (handleMessage hmap env (some m)) := by
  refine ⟨rfl, ?_, (mem_invokedHandlers_iff hmap env m t h ht).mpr hh⟩
  intro m2 h2
  simp [handleMessage, h2]

/-- Witness for Claim C9: handler 2 is still invoked for `alert_created`
although handler 1 throws in the environment `exEnv`. -/
theorem c9_witness :
    ((⟨some "alert_created", none⟩ : WsMsg).mtype? = some "alert_created" ∧
     2 ∈ getHandlers exHandlerMap "alert_created") ∧
    (handleMessage exHandlerMap exEnv none = .invalidIgnored ∧
     (∀ m2 : WsMsg, m2.mtype? = none →
       handleMessage exHandlerMap exEnv (some m2) = .invalidIgnored) ∧
     2 ∈ invokedHandlers (handleMessage exHandlerMap exEnv (some ⟨some "alert_created", none⟩))) :=
  ⟨⟨rfl, by decide⟩,
   c9_handleMessage_total exHandlerMap exEnv ⟨some "alert_created", none⟩
     "alert_created" 2 rfl (by decide)⟩

/-- Claim C10: the AlertManager notification list never exceeds 10
alerts: every `handleNewAlert` leaves at most 10 alerts with the newest
first, and resolving, updating, dismissing, and the periodic
auto-removal never increase the list length. -/
theorem c10_alert_list_bounded (d : AlertData) (now nowT : Int)
    (prev : List Alert) (target : Alert) :
    (handleNewAlert d now prev).length ≤ 10 ∧
    (handleNewAlert d now prev).head? = some (mkAlert d now) ∧
    (handleAlertResolved d prev).length = prev.length ∧
    (handleAlertUpdated d prev).length = prev.length ∧
    (handleDismissAlert target prev).length ≤ prev.length ∧
    (autoRemoveResolved nowT prev).length ≤ prev.length := by
  refine ⟨?_, rfl, ?_, ?_, ?_, ?_⟩
  · exact List.length_take_le 10 (mkAlert d now :: prev)
  · simp [handleAlertResolved]
  · simp [handleAlertUpdated]
  · exact List.length_filter_le _ _
  · exact List.length_filter_le _ _
